import Mathlib

/-!
Shallow embedding of the typed template evaluation engine of
`cli/src/operation_templater.rs` (the operation-template language binding of
the jj CLI), together with the example extension
`cli/examples/custom-operation-templater/main.rs`.

Rust strings are modelled as lists of characters; a `TemplateProperty` is a
pure fallible function from the context `Operation` to its output; parse
errors and property-evaluation errors are `Except` values.  Helper modules of
the repository that are not part of the shown source (`template_builder`,
`template_parser`, `templater`, `jj_lib`) are modelled from the spec; each
such definition carries a doc comment saying so.
-/

namespace JJ

/-- Rust `String`, modelled as a list of characters (the hex strings the
engine manipulates are ASCII, and `rustTruncate` below accounts for UTF-8
byte widths explicitly). -/
abbrev RString := List Char

/-- Evaluation-time error of a template property (`TemplatePropertyError`). -/
abbrev TemplatePropertyError := String

/-- Modelled from the spec: `jj_lib::op_store::OperationId`, an immutable
byte sequence with a canonical hexadecimal rendering. -/
structure OperationId where
  bytes : List Nat
deriving DecidableEq, Repr

/-- Lower-case hex digit for a value below 16. -/
def hexDigit (n : Nat) : Char :=
  if n < 10 then Char.ofNat (48 + n) else Char.ofNat (87 + n)

/-- Modelled from the spec: `ObjectId::hex` — the canonical lower-case
hexadecimal rendering of the byte sequence, two digits per byte. -/
def OperationId.hex (id : OperationId) : RString :=
  id.bytes.flatMap (fun b => [hexDigit (b / 16 % 16), hexDigit (b % 16)])

/-- Modelled from the spec: a recorded timestamp (milliseconds since epoch). -/
structure Timestamp where
  millis : Int
deriving DecidableEq, Repr

/-- `TimestampRange` from `templater`: recorded start/end timestamps. -/
structure TimestampRange where
  start : Timestamp
  end_ : Timestamp
deriving DecidableEq, Repr

/-- Modelled from the spec: the metadata of an operation-log entry
(description, tags, timestamps, author identity). -/
structure OperationMetadata where
  description : RString
  tags : List (RString × RString)
  start_time : Timestamp
  end_time : Timestamp
  username : RString
  hostname : RString
deriving DecidableEq, Repr

/-- Modelled from the spec: `jj_lib::operation::Operation`, the context
object — stable identifier, metadata, parent linkage. -/
structure Operation where
  id : OperationId
  metadata : OperationMetadata
  parents : List OperationId
deriving DecidableEq, Repr

/-- `TemplateProperty<Operation, Output = O>`: a pure, lazy, fallible
computation from the context object to a typed output. -/
abbrev TemplateProperty (O : Type) := Operation → Except TemplatePropertyError O

/-- `templater::TemplateFunction::new(property, function)`, modelled from the
spec: the combinator binds an upstream property and a transform; if the
upstream evaluation fails the transform is not invoked and the failure
propagates unchanged. -/
def TemplateFunction {A B : Type} (p : TemplateProperty A)
    (f : A → Except TemplatePropertyError B) : TemplateProperty B :=
  fun op => (p op).bind f

/-- Modelled from the spec: the `TemplateProperty` impl for an optional
property — an absent property evaluates to an absent output, never an error. -/
def optionProperty {A : Type} (p : Option (TemplateProperty A)) :
    TemplateProperty (Option A) :=
  fun op =>
    match p with
    | none => .ok none
    | some q => (q op).map some

/-- Modelled from the spec: the `TemplateProperty` impl for a pair of
properties — evaluation is left-to-right and the first failure propagates. -/
def pairProperty {A B : Type} (p : TemplateProperty A) (q : TemplateProperty B) :
    TemplateProperty (A × B) :=
  fun op => (p op).bind (fun a => (q op).map (fun b => (a, b)))

/-- Modelled from the spec: an argument node of the external parser's call
tree — a literal with its source span. -/
inductive ExpressionNode
  | stringLiteral (s : RString) (span : Nat)
  | integerLiteral (n : Int) (span : Nat)
deriving DecidableEq, Repr

/-- `template_parser::FunctionCallNode`: method name, ordered argument list,
source span. -/
structure FunctionCallNode where
  name : String
  args : List ExpressionNode
  span : Nat
deriving DecidableEq, Repr

/-- `template_parser::TemplateParseError`, modelled from the spec: build-time
errors carry the offending node's source span; the no-such-method error names
the unknown method and the receiver's type name. -/
inductive TemplateParseError
  | noSuchMethod (typeName : String) (methodName : String) (span : Nat)
  | invalidArguments (span : Nat)
  | unexpectedExpression (message : String) (span : Nat)
deriving DecidableEq, Repr

/-- Modelled from the spec: `template_parser::expect_no_arguments` — fails
with a parse error on the call's span unless the argument list is empty. -/
def expect_no_arguments (f : FunctionCallNode) : Except TemplateParseError Unit :=
  match f.args with
  | [] => .ok ()
  | _ => .error (.invalidArguments f.span)

/-- Modelled from the spec: `template_parser::expect_exact_arguments` at
arity one — exactly one argument, else a parse error on the call's span. -/
def expect_exact_argument (f : FunctionCallNode) :
    Except TemplateParseError ExpressionNode :=
  match f.args with
  | [a] => .ok a
  | _ => .error (.invalidArguments f.span)

/-- Modelled from the spec: `template_parser::expect_arguments` with zero
required and one optional trailing argument (`([], [len_node])`). -/
def expect_opt_argument (f : FunctionCallNode) :
    Except TemplateParseError (Option ExpressionNode) :=
  match f.args with
  | [] => .ok none
  | [a] => .ok (some a)
  | _ => .error (.invalidArguments f.span)

/-- Modelled from the spec: `template_parser::expect_string_literal_with` —
extracts a string literal and applies a validating function that receives the
literal and its span. -/
def expect_string_literal_with {A : Type} (node : ExpressionNode)
    (f : RString → Nat → Except TemplateParseError A) :
    Except TemplateParseError A :=
  match node with
  | .stringLiteral s span => f s span
  | .integerLiteral _ span => .error (.unexpectedExpression "Expected string literal" span)

/-- Modelled from the spec: `template_builder::expect_usize_expression` — the
optional `short` argument is an integer; a non-negative literal yields a
constant usize property, anything else is a build-time error on the node's
span. -/
def expect_usize_expression (node : ExpressionNode) :
    Except TemplateParseError (TemplateProperty Nat) :=
  match node with
  | .integerLiteral n span =>
      if n < 0 then .error (.unexpectedExpression "Expected non-negative integer" span)
      else .ok (fun _ => .ok n.toNat)
  | .stringLiteral _ span => .error (.unexpectedExpression "Expected integer expression" span)

/-- A template: renders the context object to text, or fails with a
property-evaluation error (the formatter is modelled as the produced text). -/
abbrev TemplateT := Operation → Except TemplatePropertyError RString

/-- `Template<()> for OperationId` (operation_templater.rs): formatting an
id writes its hex rendering. -/
def OperationId.templateFormat (id : OperationId) : RString := id.hex

/-- Modelled from the spec: `templater::IntoTemplate` for a boxed
`TemplateProperty<Operation, Output = OperationId>` — the template evaluates
the property and formats the output via its `Template` impl (the hex
rendering). -/
def intoTemplateOperationId (p : TemplateProperty OperationId) : TemplateT :=
  fun op => (p op).map OperationId.templateFormat

/-- Modelled from the spec: `templater::PlainTextFormattedProperty` — a
string property that renders the template against the context with a plain
text formatter and re-reads the output as text. -/
def PlainTextFormattedProperty (t : TemplateT) : TemplateProperty RString :=
  fun op => t op

/-- Modelled from the spec: `template_builder::CoreTemplatePropertyKind` —
the closed set of core kinds shared across template languages (boolean,
integer, string, timestamp-range, template, list), each boxing a lazy
computation of exactly that output type. -/
inductive CoreTemplatePropertyKind
  | boolean (p : TemplateProperty Bool)
  | integer (p : TemplateProperty Int)
  | string (p : TemplateProperty RString)
  | timestampRange (p : TemplateProperty TimestampRange)
  | template (t : TemplateT)
  | list (p : TemplateProperty (List RString))

/-- `OperationTemplatePropertyKind` (operation_templater.rs lines 130-134):
the tagged union of property kinds of the operation template language. -/
inductive OperationTemplatePropertyKind
  | core (p : CoreTemplatePropertyKind)
  | operation (p : TemplateProperty Operation)
  | operationId (p : TemplateProperty OperationId)

/-- Modelled from the spec: the core kinds' cast to boolean (the boolean
kind casts directly; the other core casts are external to the shown source
and irrelevant to the claims). -/
def CoreTemplatePropertyKind.try_into_boolean :
    CoreTemplatePropertyKind → Option (TemplateProperty Bool)
  | .boolean p => some p
  | _ => none

/-- Modelled from the spec: the core kinds' cast to integer. -/
def CoreTemplatePropertyKind.try_into_integer :
    CoreTemplatePropertyKind → Option (TemplateProperty Int)
  | .integer p => some p
  | _ => none

/-- Modelled from the spec: the core kinds' cast to template — a string
renders verbatim, a template is itself. -/
def CoreTemplatePropertyKind.try_into_template :
    CoreTemplatePropertyKind → Option TemplateT
  | .string p => some (fun op => p op)
  | .template t => some t
  | _ => none

/-- Modelled from the spec: the core kinds' cast to plain text — a string
casts directly, a template renders through the plain-text formatter. -/
def CoreTemplatePropertyKind.try_into_plain_text :
    CoreTemplatePropertyKind → Option (TemplateProperty RString)
  | .string p => some p
  | .template t => some (PlainTextFormattedProperty t)
  | _ => none

/-- `IntoTemplateProperty::try_into_boolean` (operation_templater.rs lines
137-143): core delegates, Operation and OperationId have no boolean cast. -/
def OperationTemplatePropertyKind.try_into_boolean :
    OperationTemplatePropertyKind → Option (TemplateProperty Bool)
  | .core p => p.try_into_boolean
  | .operation _ => none
  | .operationId _ => none

/-- `IntoTemplateProperty::try_into_integer` (lines 145-150): core
delegates, every other kind has no integer cast. -/
def OperationTemplatePropertyKind.try_into_integer :
    OperationTemplatePropertyKind → Option (TemplateProperty Int)
  | .core p => p.try_into_integer
  | _ => none

/-- `IntoTemplateProperty::try_into_template` (lines 162-168): core
delegates, Operation has no template form, OperationId renders via its
`Template` impl. -/
def OperationTemplatePropertyKind.try_into_template :
    OperationTemplatePropertyKind → Option TemplateT
  | .core p => p.try_into_template
  | .operation _ => none
  | .operationId p => some (intoTemplateOperationId p)

/-- `IntoTemplateProperty::try_into_plain_text` (lines 152-160): core
delegates; every other kind falls back through `try_into_template` wrapped in
`PlainTextFormattedProperty`. -/
def OperationTemplatePropertyKind.try_into_plain_text :
    OperationTemplatePropertyKind → Option (TemplateProperty RString)
  | .core p => p.try_into_plain_text
  | .operation p =>
      ((OperationTemplatePropertyKind.operation p).try_into_template).map
        PlainTextFormattedProperty
  | .operationId p =>
      ((OperationTemplatePropertyKind.operationId p).try_into_template).map
        PlainTextFormattedProperty

/-- The fields of `OperationTemplateLanguage` that builder functions read
(`root_op_id`, `current_op_id`); separated from the dispatch table so builder
function types are well-founded. -/
structure LanguageEnv where
  root_op_id : OperationId
  current_op_id : Option OperationId
deriving DecidableEq, Repr

/-- The lexical `BuildContext`; none of the modelled builders consult it. -/
abbrev BuildContext := Unit

/-- A builder function for self type `T`
(`TemplateBuildMethodFnMap` entry): validates the call node's arguments and
produces a new property, or fails with a build-time parse error. -/
abbrev BuildMethodFn (T : Type) :=
  LanguageEnv → BuildContext → TemplateProperty T → FunctionCallNode →
    Except TemplateParseError OperationTemplatePropertyKind

/-- A method map: HashMap from method name to builder, modelled as an
association list (`fnLookup` finds the binding in effect). -/
abbrev TemplateBuildMethodFnMap (T : Type) := List (String × BuildMethodFn T)

/-- Association-list lookup keyed by method name (HashMap::get). -/
def fnLookup {α : Type} : List (String × α) → String → Option α
  | [], _ => none
  | (k, v) :: rest, name => if k = name then some v else fnLookup rest name

/-- Association-list insert keyed by method name (HashMap::insert on fresh
keys, as the builtin tables use it). -/
def fnInsert {α : Type} (m : List (String × α)) (k : String) (v : α) :
    List (String × α) :=
  m ++ [(k, v)]

/-- Modelled from the spec: `template_builder::merge_fn_map` — the merge of
two method maps for the same kind is a union keyed by method name.  The spec
leaves the collision policy open; in this model the second (extension) map's
entry shadows, which is irrelevant when the key sets are disjoint. -/
def merge_fn_map {α : Type} (base other : List (String × α)) :
    List (String × α) :=
  other ++ base

/-- Modelled from the spec: `template_parser::lookup_method` — look up the
call node's method name in the sub-table; on failure fail with a build error
naming the unknown method and the receiver's type name, tagged with the call
node's span. -/
def lookup_method {α : Type} (typeName : String) (table : List (String × α))
    (function : FunctionCallNode) : Except TemplateParseError α :=
  match fnLookup table function.name with
  | some build => .ok build
  | none => .error (.noSuchMethod typeName function.name function.span)

/-- A builder function for a core-kind receiver. -/
abbrev CoreBuildFn :=
  LanguageEnv → BuildContext → CoreTemplatePropertyKind → FunctionCallNode →
    Except TemplateParseError OperationTemplatePropertyKind

/-- Modelled from the spec: `template_builder::CoreTemplateBuildFnTable` —
the shared core sub-table, one mapping region keyed by method name. -/
structure CoreTemplateBuildFnTable where
  methods : List (String × CoreBuildFn)

/-- Modelled from the spec: the builtin core methods live in the excluded
`template_builder` module; their content is external to the shown source and
irrelevant to the claims, so the builtin core region is modelled empty. -/
def CoreTemplateBuildFnTable.builtin : CoreTemplateBuildFnTable := ⟨[]⟩

/-- The empty core sub-table. -/
def CoreTemplateBuildFnTable.empty : CoreTemplateBuildFnTable := ⟨[]⟩

/-- Modelled from the spec: merging core sub-tables merges the method map. -/
def CoreTemplateBuildFnTable.merge (a b : CoreTemplateBuildFnTable) :
    CoreTemplateBuildFnTable :=
  ⟨merge_fn_map a.methods b.methods⟩

/-- Modelled from the spec: the diagnostic type name of a core kind. -/
def CoreTemplatePropertyKind.typeName : CoreTemplatePropertyKind → String
  | .boolean _ => "Boolean"
  | .integer _ => "Integer"
  | .string _ => "String"
  | .timestampRange _ => "TimestampRange"
  | .template _ => "Template"
  | .list _ => "List"

/-- Modelled from the spec: the core sub-table's `build_method` — method
resolution against a core-kind receiver, failing with a build error naming
the unknown method and the receiver's type name on lookup failure. -/
def CoreTemplateBuildFnTable.build_method (t : CoreTemplateBuildFnTable)
    (env : LanguageEnv) (build_ctx : BuildContext)
    (property : CoreTemplatePropertyKind) (function : FunctionCallNode) :
    Except TemplateParseError OperationTemplatePropertyKind :=
  (lookup_method property.typeName t.methods function).bind
    (fun build => build env build_ctx property function)

/-- `OperationTemplateBuildFnTable` (lines 176-180): the core region plus
one method map per domain kind. -/
structure OperationTemplateBuildFnTable where
  core : CoreTemplateBuildFnTable
  operation_methods : TemplateBuildMethodFnMap Operation
  operation_id_methods : TemplateBuildMethodFnMap OperationId

/-- Typed wrap constructor: lift a boolean computation into the union. -/
def wrap_boolean (p : TemplateProperty Bool) : OperationTemplatePropertyKind :=
  .core (.boolean p)

/-- Typed wrap constructor: lift an integer computation into the union. -/
def wrap_integer (p : TemplateProperty Int) : OperationTemplatePropertyKind :=
  .core (.integer p)

/-- Typed wrap constructor: lift a string computation into the union. -/
def wrap_string (p : TemplateProperty RString) : OperationTemplatePropertyKind :=
  .core (.string p)

/-- Typed wrap constructor: lift a timestamp-range computation. -/
def wrap_timestamp_range (p : TemplateProperty TimestampRange) :
    OperationTemplatePropertyKind :=
  .core (.timestampRange p)

/-- `wrap_operation` (lines 115-120). -/
def wrap_operation (p : TemplateProperty Operation) :
    OperationTemplatePropertyKind :=
  .operation p

/-- `wrap_operation_id` (lines 122-127). -/
def wrap_operation_id (p : TemplateProperty OperationId) :
    OperationTemplatePropertyKind :=
  .operationId p

/-- `builtin_operation_methods` (lines 213-285): the fixed method set of the
Operation kind, each entry validating a zero-argument call and composing a
transform over the receiver property. -/
def builtin_operation_methods : TemplateBuildMethodFnMap Operation :=
  fnInsert (fnInsert (fnInsert (fnInsert (fnInsert (fnInsert (fnInsert []
    "current_operation"
    (fun language _build_ctx self_property function => do
      let _ ← expect_no_arguments function
      let current_op_id := language.current_op_id
      let out_property := TemplateFunction self_property
        (fun op => .ok (decide (some op.id = current_op_id)))
      .ok (wrap_boolean out_property)))
    "description"
    (fun _language _build_ctx self_property function => do
      let _ ← expect_no_arguments function
      let out_property := TemplateFunction self_property
        (fun op => .ok op.metadata.description)
      .ok (wrap_string out_property)))
    "id"
    (fun _language _build_ctx self_property function => do
      let _ ← expect_no_arguments function
      let out_property := TemplateFunction self_property (fun op => .ok op.id)
      .ok (wrap_operation_id out_property)))
    "tags"
    (fun _language _build_ctx self_property function => do
      let _ ← expect_no_arguments function
      let out_property := TemplateFunction self_property
        (fun op => .ok (List.intercalate [Char.ofNat 10]
          (op.metadata.tags.map
            (fun kv => kv.1 ++ (Char.ofNat 58 :: Char.ofNat 32 :: kv.2)))))
      .ok (wrap_string out_property)))
    "time"
    (fun _language _build_ctx self_property function => do
      let _ ← expect_no_arguments function
      let out_property := TemplateFunction self_property
        (fun op => .ok { start := op.metadata.start_time
                         end_ := op.metadata.end_time : TimestampRange })
      .ok (wrap_timestamp_range out_property)))
    "user"
    (fun _language _build_ctx self_property function => do
      let _ ← expect_no_arguments function
      let out_property := TemplateFunction self_property
        (fun op => .ok (op.metadata.username ++ Char.ofNat 64 :: op.metadata.hostname))
      .ok (wrap_string out_property)))
    "root"
    (fun language _build_ctx self_property function => do
      let _ ← expect_no_arguments function
      let root_op_id := language.root_op_id
      let out_property := TemplateFunction self_property
        (fun op => .ok (decide (op.id = root_op_id)))
      .ok (wrap_boolean out_property))

/-- Rust `String::truncate(new_len)`: a no-op when `new_len` exceeds the byte
length, otherwise keeps the first `new_len` bytes, panicking (`none`) when
`new_len` is not a character boundary of the UTF-8 encoding. -/
def rustTruncate : List Char → Nat → Option (List Char)
  | _, 0 => some []
  | [], _ + 1 => some []
  | c :: cs, n + 1 =>
      if c.utf8Size ≤ n + 1 then
        (rustTruncate cs (n + 1 - c.utf8Size)).map (fun t => c :: t)
      else none

/-- The `out_property` of the `short` builder (lines 302-306): evaluate the
receiver id and the optional length left-to-right, render the hex string and
truncate it in place to the requested length (default 12).  A Rust panic on a
non-boundary truncation index is modelled as a distinguished evaluation
error, proved unreachable below. -/
def shortOutProperty (self_property : TemplateProperty OperationId)
    (len_property : Option (TemplateProperty Nat)) : TemplateProperty RString :=
  TemplateFunction (pairProperty self_property (optionProperty len_property))
    (fun x =>
      match rustTruncate x.1.hex ((x.2).getD 12) with
      | some hex => .ok hex
      | none => .error "panic: truncate not on a char boundary")

/-- `builtin_operation_id_methods` (lines 293-310): the `short` method —
optional usize argument, hex rendering truncated in place. -/
def builtin_operation_id_methods : TemplateBuildMethodFnMap OperationId :=
  fnInsert []
    "short"
    (fun _language _build_ctx self_property function => do
      let len_node ← expect_opt_argument function
      let len_property ←
        match len_node with
        | none => .ok none
        | some node => (expect_usize_expression node).map some
      .ok (wrap_string (shortOutProperty self_property len_property)))

/-- `OperationTemplateBuildFnTable::builtin` (lines 184-190). -/
def OperationTemplateBuildFnTable.builtin : OperationTemplateBuildFnTable :=
  { core := CoreTemplateBuildFnTable.builtin
    operation_methods := builtin_operation_methods
    operation_id_methods := builtin_operation_id_methods }

/-- `OperationTemplateBuildFnTable::empty` (lines 192-198). -/
def OperationTemplateBuildFnTable.empty : OperationTemplateBuildFnTable :=
  { core := CoreTemplateBuildFnTable.empty
    operation_methods := []
    operation_id_methods := [] }

/-- `OperationTemplateBuildFnTable::merge` (lines 200-210): merge each
sub-table independently. -/
def OperationTemplateBuildFnTable.merge (self other : OperationTemplateBuildFnTable) :
    OperationTemplateBuildFnTable :=
  { core := self.core.merge other.core
    operation_methods := merge_fn_map self.operation_methods other.operation_methods
    operation_id_methods := merge_fn_map self.operation_id_methods other.operation_id_methods }

/-- `OperationTemplateLanguageExtension` (lines 36-40): contributes a
dispatch-table fragment (the cache-extensions side channel is not consulted
by any modelled builder and is omitted). -/
structure OperationTemplateLanguageExtension where
  build_fn_table : OperationTemplateBuildFnTable

/-- `OperationTemplateLanguage` (lines 42-47): the binding's identifier
fields plus the merged dispatch table. -/
structure OperationTemplateLanguage where
  env : LanguageEnv
  build_fn_table : OperationTemplateBuildFnTable

/-- `OperationTemplateLanguage::new` (lines 52-71): builtin table, merged
with the extension's fragment when one is supplied. -/
def OperationTemplateLanguage.new (root_op_id : OperationId)
    (current_op_id : Option OperationId)
    (extension : Option OperationTemplateLanguageExtension) :
    OperationTemplateLanguage :=
  let build_fn_table := OperationTemplateBuildFnTable.builtin
  let build_fn_table :=
    match extension with
    | some ext => build_fn_table.merge ext.build_fn_table
    | none => build_fn_table
  { env := { root_op_id := root_op_id, current_op_id := current_op_id }
    build_fn_table := build_fn_table }

/-- `build_self` (lines 80-83): the root property wrapping the context
object itself. -/
def OperationTemplateLanguage.build_self (_lang : OperationTemplateLanguage) :
    OperationTemplatePropertyKind :=
  wrap_operation (fun op => .ok op)

/-- `build_method` (lines 85-107): dispatch on the receiver property's kind,
look the method name up in the matching sub-table, and invoke the builder. -/
def OperationTemplateLanguage.build_method (lang : OperationTemplateLanguage)
    (build_ctx : BuildContext) (property : OperationTemplatePropertyKind)
    (function : FunctionCallNode) :
    Except TemplateParseError OperationTemplatePropertyKind :=
  match property with
  | .core property =>
      lang.build_fn_table.core.build_method lang.env build_ctx property function
  | .operation property => do
      let build ← lookup_method "Operation" lang.build_fn_table.operation_methods function
      build lang.env build_ctx property function
  | .operationId property => do
      let build ← lookup_method "OperationId" lang.build_fn_table.operation_id_methods function
      build lang.env build_ctx property function

/-- `num_digits_in_id` (custom-operation-templater/main.rs lines 29-37):
count of ASCII digit characters in the id's hex string. -/
def num_digits_in_id (id : OperationId) : Int :=
  (id.hex.countP (fun ch => ch.isDigit) : Nat)

/-- `num_char_in_id` (main.rs lines 39-47): count of occurrences of the
given character in the operation id's hex string. -/
def num_char_in_id (operation : Operation) (ch_match : Char) :
    Except TemplatePropertyError Int :=
  .ok ((operation.id.hex.countP (fun ch => ch == ch_match) : Nat) : Int)

/-- `HexCounter::build_fn_table` (main.rs lines 50-88): the example
extension's dispatch-table fragment contributing `num_digits_in_id` and
`num_char_in_id` on the Operation kind. -/
def HexCounter.build_fn_table : OperationTemplateBuildFnTable :=
  let table := OperationTemplateBuildFnTable.empty
  { table with
    operation_methods :=
      fnInsert (fnInsert table.operation_methods
        "num_digits_in_id"
        (fun _language _build_context property call => do
          let _ ← expect_no_arguments call
          .ok (wrap_integer (TemplateFunction property
            (fun operation => .ok (num_digits_in_id operation.id))))))
        "num_char_in_id"
        (fun _language _build_context property call => do
          let string_arg ← expect_exact_argument call
          let char_arg ← expect_string_literal_with string_arg
            (fun string span =>
              match string with
              | [ch] => .ok ch
              | _ => .error (.unexpectedExpression
                  "Expected singular character argument" span))
          .ok (wrap_integer (TemplateFunction property
            (fun operation => num_char_in_id operation char_arg)))) }

/-- The example extension value (`HexCounter`). -/
def hexCounter : OperationTemplateLanguageExtension :=
  { build_fn_table := HexCounter.build_fn_table }

/-- Whether the method name is absent from the dispatch sub-table registered
for the receiver property's kind. -/
def methodAbsent (lang : OperationTemplateLanguage) :
    OperationTemplatePropertyKind → String → Bool
  | .core _, name => (fnLookup lang.build_fn_table.core.methods name).isNone
  | .operation _, name => (fnLookup lang.build_fn_table.operation_methods name).isNone
  | .operationId _, name => (fnLookup lang.build_fn_table.operation_id_methods name).isNone

/-- The diagnostic type name a failed lookup reports for a receiver kind:
the string literals of `build_method` for the domain kinds. -/
def receiverTypeName : OperationTemplatePropertyKind → String
  | .core c => c.typeName
  | .operation _ => "Operation"
  | .operationId _ => "OperationId"

/-- Two method maps with no method name in common. -/
abbrev keysDisjoint {α β : Type} (xs : List (String × α)) (ys : List (String × β)) : Prop :=
  ∀ k ∈ xs.map Prod.fst, k ∉ ys.map Prod.fst

/-- The tag of a property's kind (which method namespace and casts apply). -/
inductive KindTag
  | boolean
  | integer
  | string
  | timestampRange
  | template
  | list
  | operation
  | operationId
deriving DecidableEq, Repr

/-- The tag of a built property. -/
def kindTagOf : OperationTemplatePropertyKind → KindTag
  | .core (.boolean _) => .boolean
  | .core (.integer _) => .integer
  | .core (.string _) => .string
  | .core (.timestampRange _) => .timestampRange
  | .core (.template _) => .template
  | .core (.list _) => .list
  | .operation _ => .operation
  | .operationId _ => .operationId

/-- The signature of the builtin Operation methods: name, result kind.  All
take no arguments. -/
def builtinOperationMethodSig : List (String × KindTag) :=
  [("current_operation", .boolean), ("description", .string), ("id", .operationId),
   ("tags", .string), ("time", .timestampRange), ("user", .string), ("root", .boolean)]

/-- A call node is valid on a receiver of the given kind tag (builtin
binding): a builtin Operation method with no arguments, or `short` on an
OperationId with no argument or one non-negative integer literal.  Returns
the result kind. -/
def validCall (k : KindTag) (f : FunctionCallNode) : Option KindTag :=
  match k with
  | .operation =>
      match f.args with
      | [] => fnLookup builtinOperationMethodSig f.name
      | _ => none
  | .operationId =>
      if f.name = "short" then
        match f.args with
        | [] => some .string
        | [.integerLiteral n _] => if 0 ≤ n then some .string else none
        | _ => none
      else none
  | _ => none

/-- A call chain is well formed from a starting kind tag: each call is valid
on the kind produced so far. -/
def wellFormedCalls : KindTag → List FunctionCallNode → Bool
  | _, [] => true
  | k, f :: fs =>
      match validCall k f with
      | some k2 => wellFormedCalls k2 fs
      | none => false

/-- Build a chain of method calls bottom-up over a receiver property,
aborting on the first build error (fail-fast). -/
def buildCalls (lang : OperationTemplateLanguage) :
    OperationTemplatePropertyKind → List FunctionCallNode →
    Except TemplateParseError OperationTemplatePropertyKind
  | p, [] => .ok p
  | p, f :: fs =>
      match lang.build_method () p f with
      | .ok q => buildCalls lang q fs
      | .error e => .error e

/-- One renderer pass: attempt the plain-text cast and evaluate it against
the context (absent cast gives `none`). -/
def evalOnce (q : OperationTemplatePropertyKind) (op : Operation) :
    Option (Except TemplatePropertyError RString) :=
  (q.try_into_plain_text).map (fun t => t op)

/-- Two renderer passes over the same property and context. -/
def evalTwice (q : OperationTemplatePropertyKind) (op : Operation) :
    Option (Except TemplatePropertyError RString) ×
      Option (Except TemplatePropertyError RString) :=
  (evalOnce q op, evalOnce q op)

/-- A concrete operation id used by the concrete-input theorems. -/
def sampleId : OperationId := ⟨[171, 193, 35, 0, 0, 0, 0]⟩

/-- A second concrete operation id. -/
def otherId : OperationId := ⟨[1]⟩

/-- A concrete context operation with no parent. -/
def sampleOp : Operation :=
  { id := sampleId
    metadata :=
      { description := [Char.ofNat 100]
        tags := []
        start_time := ⟨0⟩
        end_time := ⟨1⟩
        username := [Char.ofNat 117]
        hostname := [Char.ofNat 104] }
    parents := [] }

/-! Helper lemmas. -/

/-- Every hex digit is a one-byte (ASCII) character. -/
theorem hexDigit_utf8Size : ∀ n, n < 16 → (hexDigit n).utf8Size = 1 := by
  decide

/-- Every character of a hex rendering is a one-byte (ASCII) character. -/
theorem hex_utf8Size_one (id : OperationId) :
    ∀ c ∈ id.hex, c.utf8Size = 1 := by
  intro c hc
  simp only [OperationId.hex, List.mem_flatMap, List.mem_cons,
    List.not_mem_nil, or_false] at hc
  obtain ⟨b, _, hb⟩ := hc
  rcases hb with h | h <;>
    exact h ▸ hexDigit_utf8Size _ (Nat.mod_lt _ (by omega))

/-- On a string of one-byte characters `rustTruncate` never panics: every
index is a character boundary and truncation is `List.take`. -/
theorem rustTruncate_eq_take :
    ∀ (cs : List Char) (n : Nat), (∀ c ∈ cs, c.utf8Size = 1) →
      rustTruncate cs n = some (cs.take n) := by
  intro cs
  induction cs with
  | nil => intro n _; cases n <;> rfl
  | cons c cs ih =>
      intro n h
      cases n with
      | zero => rfl
      | succ m =>
          have hc : c.utf8Size = 1 := h c (List.mem_cons_self c cs)
          have hrest : ∀ x ∈ cs, x.utf8Size = 1 :=
            fun x hx => h x (List.mem_cons_of_mem c hx)
          simp [rustTruncate, hc, ih m hrest]

/-- Truncating the hex rendering of an id never panics and takes the first
`n` characters. -/
theorem rustTruncate_hex (id : OperationId) (n : Nat) :
    rustTruncate id.hex n = some (id.hex.take n) :=
  rustTruncate_eq_take id.hex n (hex_utf8Size_one id)

/-! Claim theorems. -/

/-- Claim C9: every cast entry point on an Operation-kind property — to
boolean, to integer, to plain text and to template — returns `none`, and
`build_self` produces exactly such an Operation-kind property, so it can only
be consumed by a further method call, never rendered directly. -/
theorem operation_kind_casts_unavailable (p : TemplateProperty Operation)
    (lang : OperationTemplateLanguage) :
    (OperationTemplatePropertyKind.operation p).try_into_boolean = none ∧
    (OperationTemplatePropertyKind.operation p).try_into_integer = none ∧
    (OperationTemplatePropertyKind.operation p).try_into_plain_text = none ∧
    (OperationTemplatePropertyKind.operation p).try_into_template = none ∧
    lang.build_self = .operation (fun op => .ok op) :=
  ⟨rfl, rfl, rfl, rfl, rfl⟩

/-- Claim C6: an OperationId-kind property has a plain-text cast, obtained
by falling back through its template form, and evaluating it yields exactly
the text the template form renders — the id's full hexadecimal string. -/
theorem operation_id_plain_text_via_template (p : TemplateProperty OperationId) :
    (OperationTemplatePropertyKind.operationId p).try_into_template =
      some (intoTemplateOperationId p) ∧
    ∃ q, (OperationTemplatePropertyKind.operationId p).try_into_plain_text = some q ∧
      ∀ op, q op = intoTemplateOperationId p op ∧
        q op = (p op).map OperationId.hex :=
  ⟨rfl, PlainTextFormattedProperty (intoTemplateOperationId p), rfl,
    fun _ => ⟨rfl, rfl⟩⟩

/-- The binding constructed by `new` stores the given identifiers. -/
theorem new_env (r : OperationId) (c : Option OperationId)
    (e : Option OperationTemplateLanguageExtension) :
    (OperationTemplateLanguage.new r c e).env = ⟨r, c⟩ := by
  cases e <;> rfl

/-- Claim C3: the boolean property built by `current_operation` evaluates to
false unconditionally when the binding was constructed with no
current-operation id, and otherwise to true exactly when the context
operation's id equals the configured current-operation id. -/
theorem current_operation_semantics (root : OperationId) (cur : Option OperationId)
    (p : TemplateProperty Operation) (span : Nat) :
    ∃ q, (OperationTemplateLanguage.new root cur none).build_method ()
        (.operation p) ⟨"current_operation", [], span⟩ = .ok (.core (.boolean q)) ∧
      ∀ op, q op = (p op).map
        (fun o =>
          match cur with
          | none => false
          | some c => decide (o.id = c)) := by
  refine ⟨_, rfl, ?_⟩
  intro op
  cases hp : p op with
  | error e => simp [TemplateFunction, Except.bind, Except.map, hp]
  | ok o =>
      cases cur with
      | none => simp [TemplateFunction, Except.bind, Except.map, hp, new_env]
      | some c => simp [TemplateFunction, Except.bind, Except.map, hp, new_env]

/-- Claim C4: the boolean property built by `root` evaluates to true exactly
when the context operation's id equals the binding's configured root id, and
to false for every other context — in particular for a context with no
parents whose id differs from the root id. -/
theorem root_method_semantics (root : OperationId) (cur : Option OperationId)
    (p : TemplateProperty Operation) (span : Nat) :
    ∃ q, (OperationTemplateLanguage.new root cur none).build_method ()
        (.operation p) ⟨"root", [], span⟩ = .ok (.core (.boolean q)) ∧
      (∀ op, q op = (p op).map (fun o => decide (o.id = root))) ∧
      (∀ op o, p op = .ok o → o.parents = [] → o.id ≠ root → q op = .ok false) := by
  refine ⟨_, rfl, ?_, ?_⟩
  · intro op
    cases hp : p op <;> simp [TemplateFunction, Except.bind, Except.map, hp, new_env]
  · intro op o hp _ hne
    simp [TemplateFunction, Except.bind, hp, hne, new_env]

/-- Witness for C4 at a concrete binding and context: the sample context has
no parents and an id different from the configured root id, and `root()`
evaluates to false on it. -/
theorem root_method_semantics_witness :
    ∃ q, (OperationTemplateLanguage.new otherId none none).build_method ()
        (.operation (fun op => .ok op)) ⟨"root", [], 0⟩ = .ok (.core (.boolean q)) ∧
      q sampleOp = .ok false := by
  obtain ⟨q, hb, _, h2⟩ :=
    root_method_semantics otherId none (fun op => .ok op) 0
  exact ⟨q, hb, h2 sampleOp sampleOp rfl rfl (by decide)⟩

/-- Claim C2: when a call node's method name is absent from the dispatch
sub-table registered for the receiver property's kind, `build_method` fails
with a build-time error naming the unknown method and the receiver's type
name. -/
theorem unknown_method_is_build_error (lang : OperationTemplateLanguage)
    (p : OperationTemplatePropertyKind) (f : FunctionCallNode)
    (h : methodAbsent lang p f.name = true) :
    lang.build_method () p f =
      .error (.noSuchMethod (receiverTypeName p) f.name f.span) := by
  cases p with
  | core c =>
      have he : fnLookup lang.build_fn_table.core.methods f.name = none := by
        simpa [methodAbsent, Option.isNone_iff_eq_none] using h
      simp [OperationTemplateLanguage.build_method,
        CoreTemplateBuildFnTable.build_method, lookup_method, he,
        receiverTypeName, Except.bind]
  | operation pp =>
      have he : fnLookup lang.build_fn_table.operation_methods f.name = none := by
        simpa [methodAbsent, Option.isNone_iff_eq_none] using h
      simp [OperationTemplateLanguage.build_method, lookup_method, he,
        receiverTypeName, Except.bind, Bind.bind]
  | operationId pp =>
      have he : fnLookup lang.build_fn_table.operation_id_methods f.name = none := by
        simpa [methodAbsent, Option.isNone_iff_eq_none] using h
      simp [OperationTemplateLanguage.build_method, lookup_method, he,
        receiverTypeName, Except.bind, Bind.bind]

/-- Witness for C2: on the builtin binding, calling the unregistered method
`frobnicate` on an Operation-kind receiver fails at build time naming the
method and the receiver type. -/
theorem unknown_method_is_build_error_witness :
    (OperationTemplateLanguage.new otherId none none).build_method ()
        (.operation (fun op => .ok op)) ⟨"frobnicate", [], 3⟩ =
      .error (.noSuchMethod "Operation" "frobnicate" 3) :=
  unknown_method_is_build_error _ _ _ (by decide)

/-- A non-negative integer literal argument builds a constant usize
property. -/
theorem expect_usize_nonneg (n : Int) (hge : 0 ≤ n) (sp : Nat) :
    expect_usize_expression (.integerLiteral n sp) = .ok (fun _ => .ok n.toNat) := by
  simp [expect_usize_expression, Int.not_lt.mpr hge]

/-- A natural-number literal argument builds the constant property of that
number. -/
theorem expect_usize_ofNat (n : Nat) (sp : Nat) :
    expect_usize_expression (.integerLiteral (n : Int) sp) = .ok (fun _ => .ok n) := by
  rw [expect_usize_nonneg (n : Int) (by omega) sp]
  have ht : ((n : Int)).toNat = n := by omega
  rw [ht]

/-- Claim C1: `short` with no argument yields the hex rendering truncated to
12 characters (the full string when shorter), `short(n)` yields the hex
rendering truncated to `n` characters, and when `n` is at least the hex
length the truncation is the untruncated hex string — never padding and
never failing. -/
theorem short_truncation_spec (root : OperationId) (cur : Option OperationId)
    (p : TemplateProperty OperationId) (span spanA n : Nat) :
    (∃ q, (OperationTemplateLanguage.new root cur none).build_method ()
        (.operationId p) ⟨"short", [], span⟩ = .ok (.core (.string q)) ∧
      ∀ op, q op = (p op).map (fun id => id.hex.take 12)) ∧
    (∃ q, (OperationTemplateLanguage.new root cur none).build_method ()
        (.operationId p) ⟨"short", [.integerLiteral (n : Int) spanA], span⟩ =
          .ok (.core (.string q)) ∧
      ∀ op, q op = (p op).map (fun id => id.hex.take n)) ∧
    (∀ id : OperationId, id.hex.length ≤ n → id.hex.take n = id.hex) := by
  refine ⟨⟨_, rfl, ?_⟩, ⟨shortOutProperty p (some (fun _ => .ok n)), ?_, ?_⟩, ?_⟩
  · intro op
    cases hp : p op <;>
      simp [shortOutProperty, TemplateFunction, pairProperty, optionProperty,
        Except.bind, Except.map, hp, rustTruncate_hex]
  · have h1 : (OperationTemplateLanguage.new root cur none).build_method ()
        (.operationId p) ⟨"short", [.integerLiteral (n : Int) spanA], span⟩ =
        ((expect_usize_expression (.integerLiteral (n : Int) spanA)).map some).bind
          (fun len_property => .ok (wrap_string (shortOutProperty p len_property))) := rfl
    rw [h1, expect_usize_ofNat]
    rfl
  · intro op
    cases hp : p op <;>
      simp [shortOutProperty, TemplateFunction, pairProperty, optionProperty,
        Except.bind, Except.map, hp, rustTruncate_hex]
  · intro id hlen
    exact List.take_of_length_le hlen

/-- Witness for C1 on a concrete id: the hex rendering of the sample id has
14 characters, so `short(20)` leaves it untruncated. -/
theorem short_truncation_spec_witness :
    sampleId.hex.take 20 = sampleId.hex :=
  (short_truncation_spec otherId none (fun _ => .ok sampleId) 0 1 20).2.2
    sampleId (by decide)

/-- Claim C10: truncating the hexadecimal rendering of an operation id never
fails for any requested length — every character of the hex string is a
one-byte ASCII character so every truncation index is a character boundary —
and the `short` out-property therefore always evaluates successfully, with
and without an explicit length. -/
theorem short_evaluation_total (id : OperationId) (n : Nat) (op : Operation) :
    rustTruncate id.hex n = some (id.hex.take n) ∧
    shortOutProperty (fun _ => .ok id) (some (fun _ => .ok n)) op =
      .ok (id.hex.take n) ∧
    shortOutProperty (fun _ => .ok id) none op = .ok (id.hex.take 12) := by
  refine ⟨rustTruncate_hex id n, ?_, ?_⟩ <;>
    simp [shortOutProperty, TemplateFunction, pairProperty, optionProperty,
      Except.bind, Except.map, rustTruncate_hex]

/-- Claim C8: the extension-contributed `num_char_in_id` method — a
one-character string literal argument builds an integer property counting
occurrences of that character in the context operation id's hex string; a
string literal of any other length fails to build with a parse error
carrying the argument's span, producing no property. -/
theorem num_char_in_id_build_spec (root : OperationId) (cur : Option OperationId)
    (p : TemplateProperty Operation) (s : RString) (spanA span : Nat) :
    (∀ c, s = [c] →
      ∃ q, (OperationTemplateLanguage.new root cur (some hexCounter)).build_method ()
          (.operation p) ⟨"num_char_in_id", [.stringLiteral s spanA], span⟩ =
            .ok (.core (.integer q)) ∧
        ∀ op, q op = (p op).bind (fun o => num_char_in_id o c) ∧
          ∀ o, p op = .ok o →
            q op = .ok ((o.id.hex.countP (fun ch => ch == c) : Nat) : Int)) ∧
    (s.length ≠ 1 →
      (OperationTemplateLanguage.new root cur (some hexCounter)).build_method ()
          (.operation p) ⟨"num_char_in_id", [.stringLiteral s spanA], span⟩ =
        .error (.unexpectedExpression "Expected singular character argument" spanA)) := by
  constructor
  · rintro c rfl
    refine ⟨_, rfl, ?_⟩
    intro op
    refine ⟨rfl, ?_⟩
    intro o hp
    simp [TemplateFunction, Except.bind, hp, num_char_in_id]
  · intro hs
    rcases s with _ | ⟨c1, _ | ⟨c2, rest⟩⟩
    · rfl
    · exact absurd rfl hs
    · rfl

/-- Witness for C8 on the sample id (hex `abc12300000000`): `'a'` occurs
once, and the two-character literal `"ab"` fails to build with the parse
error on the argument's span. -/
theorem num_char_in_id_build_spec_witness :
    (∃ q, (OperationTemplateLanguage.new otherId none (some hexCounter)).build_method ()
        (.operation (fun op => .ok op))
        ⟨"num_char_in_id", [.stringLiteral [Char.ofNat 97] 3], 7⟩ =
          .ok (.core (.integer q)) ∧
      q sampleOp = .ok 1) ∧
    (OperationTemplateLanguage.new otherId none (some hexCounter)).build_method ()
        (.operation (fun op => .ok op))
        ⟨"num_char_in_id", [.stringLiteral [Char.ofNat 97, Char.ofNat 98] 3], 7⟩ =
      .error (.unexpectedExpression "Expected singular character argument" 3) := by
  constructor
  · obtain ⟨q, hb, hq⟩ :=
      (num_char_in_id_build_spec otherId none (fun op => .ok op)
        [Char.ofNat 97] 3 7).1 (Char.ofNat 97) rfl
    refine ⟨q, hb, ?_⟩
    have h2 := (hq sampleOp).2 sampleOp rfl
    rw [h2]
    have hc : ((sampleOp.id.hex.countP (fun ch => ch == Char.ofNat 97) : Nat) : Int) = 1 := by
      decide
    rw [hc]
  · exact
      (num_char_in_id_build_spec otherId none (fun op => .ok op)
        [Char.ofNat 97, Char.ofNat 98] 3 7).2 (by decide)

/-- A successful lookup survives appending entries on the right. -/
theorem fnLookup_append_some {α : Type} {xs : List (String × α)} {k : String}
    {v : α} (ys : List (String × α)) (h : fnLookup xs k = some v) :
    fnLookup (xs ++ ys) k = some v := by
  induction xs with
  | nil => simp [fnLookup] at h
  | cons a rest ih =>
      obtain ⟨key, val⟩ := a
      by_cases hk : key = k
      · subst hk
        simp only [fnLookup, if_pos rfl] at h ⊢
        exact h
      · simp only [List.cons_append, fnLookup, if_neg hk] at h ⊢
        exact ih h

/-- A failed lookup falls through appended entries. -/
theorem fnLookup_append_none {α : Type} {xs : List (String × α)} {k : String}
    (ys : List (String × α)) (h : fnLookup xs k = none) :
    fnLookup (xs ++ ys) k = fnLookup ys k := by
  induction xs with
  | nil => rfl
  | cons a rest ih =>
      obtain ⟨key, val⟩ := a
      by_cases hk : key = k
      · subst hk; simp [fnLookup] at h
      · simp only [List.cons_append, fnLookup, if_neg hk] at h ⊢
        exact ih h

/-- A successful lookup means the key is among the map's method names. -/
theorem fnLookup_mem_keys {α : Type} {xs : List (String × α)} {k : String}
    {v : α} (h : fnLookup xs k = some v) : k ∈ xs.map Prod.fst := by
  induction xs with
  | nil => simp [fnLookup] at h
  | cons a rest ih =>
      obtain ⟨key, val⟩ := a
      by_cases hk : key = k
      · subst hk; simp
      · simp only [fnLookup, if_neg hk] at h
        simp [ih h]

/-- A key not among the method names never resolves. -/
theorem fnLookup_not_mem_keys {α : Type} {xs : List (String × α)} {k : String}
    (h : k ∉ xs.map Prod.fst) : fnLookup xs k = none := by
  induction xs with
  | nil => rfl
  | cons a rest ih =>
      obtain ⟨key, val⟩ := a
      simp only [List.map_cons, List.mem_cons, not_or] at h
      have hne : ¬ key = k := fun hk => h.1 hk.symm
      simp only [fnLookup, if_neg hne]
      exact ih h.2

/-- Merging two method maps with disjoint method-name sets is commutative
under lookup and yields the union: a name resolves after the merge to the
builder it had in whichever map contained it. -/
theorem merge_fn_map_disjoint {α : Type} (xs ys : List (String × α))
    (h : keysDisjoint xs ys) (k : String) :
    fnLookup (merge_fn_map xs ys) k = fnLookup (merge_fn_map ys xs) k ∧
    (∀ v, fnLookup xs k = some v → fnLookup (merge_fn_map xs ys) k = some v) ∧
    (∀ v, fnLookup ys k = some v → fnLookup (merge_fn_map xs ys) k = some v) := by
  unfold merge_fn_map
  refine ⟨?_, ?_, ?_⟩
  · cases hx : fnLookup xs k with
    | some v =>
        have hy : fnLookup ys k = none :=
          fnLookup_not_mem_keys (h k (fnLookup_mem_keys hx))
        rw [fnLookup_append_none xs hy, fnLookup_append_some ys hx, hx]
    | none =>
        rw [fnLookup_append_none ys hx]
        cases hy : fnLookup ys k with
        | some v => exact fnLookup_append_some xs hy
        | none => rw [fnLookup_append_none xs hy]; exact hx
  · intro v hv
    have hy : fnLookup ys k = none :=
      fnLookup_not_mem_keys (h k (fnLookup_mem_keys hv))
    rw [fnLookup_append_none xs hy]
    exact hv
  · intro v hv
    exact fnLookup_append_some xs hv

/-- Claim C5: merging two dispatch tables whose method-name sets are
disjoint in each sub-table (core, operation methods, operation-id methods)
is commutative under lookup and yields the union — after the merge every
method name resolves to the builder it had in whichever source table
contained it. -/
theorem merge_disjoint_commutes_union (a b : OperationTemplateBuildFnTable)
    (h1 : keysDisjoint a.core.methods b.core.methods)
    (h2 : keysDisjoint a.operation_methods b.operation_methods)
    (h3 : keysDisjoint a.operation_id_methods b.operation_id_methods)
    (k : String) :
    (fnLookup (a.merge b).core.methods k = fnLookup (b.merge a).core.methods k ∧
     fnLookup (a.merge b).operation_methods k =
       fnLookup (b.merge a).operation_methods k ∧
     fnLookup (a.merge b).operation_id_methods k =
       fnLookup (b.merge a).operation_id_methods k) ∧
    ((∀ v, fnLookup a.core.methods k = some v →
        fnLookup (a.merge b).core.methods k = some v) ∧
     (∀ v, fnLookup b.core.methods k = some v →
        fnLookup (a.merge b).core.methods k = some v)) ∧
    ((∀ v, fnLookup a.operation_methods k = some v →
        fnLookup (a.merge b).operation_methods k = some v) ∧
     (∀ v, fnLookup b.operation_methods k = some v →
        fnLookup (a.merge b).operation_methods k = some v)) ∧
    ((∀ v, fnLookup a.operation_id_methods k = some v →
        fnLookup (a.merge b).operation_id_methods k = some v) ∧
     (∀ v, fnLookup b.operation_id_methods k = some v →
        fnLookup (a.merge b).operation_id_methods k = some v)) := by
  have hc := merge_fn_map_disjoint a.core.methods b.core.methods h1 k
  have ho := merge_fn_map_disjoint a.operation_methods b.operation_methods h2 k
  have hi := merge_fn_map_disjoint a.operation_id_methods b.operation_id_methods h3 k
  exact ⟨⟨hc.1, ho.1, hi.1⟩, ⟨hc.2.1, hc.2.2⟩, ⟨ho.2.1, ho.2.2⟩, ⟨hi.2.1, hi.2.2⟩⟩

/-- Witness for C5: the builtin table and the example extension's table have
disjoint method names; merging them in either order resolves
`num_digits_in_id` identically, and both the extension's `num_digits_in_id`
and the builtin `root` keep their builders in the merged table. -/
theorem merge_disjoint_commutes_union_witness :
    fnLookup ((OperationTemplateBuildFnTable.builtin.merge
        HexCounter.build_fn_table).operation_methods) "num_digits_in_id" =
      fnLookup ((HexCounter.build_fn_table.merge
        OperationTemplateBuildFnTable.builtin).operation_methods) "num_digits_in_id" ∧
    (∀ v, fnLookup HexCounter.build_fn_table.operation_methods "num_digits_in_id" = some v →
      fnLookup ((OperationTemplateBuildFnTable.builtin.merge
        HexCounter.build_fn_table).operation_methods) "num_digits_in_id" = some v) ∧
    (∀ v, fnLookup OperationTemplateBuildFnTable.builtin.operation_methods "root" = some v →
      fnLookup ((OperationTemplateBuildFnTable.builtin.merge
        HexCounter.build_fn_table).operation_methods) "root" = some v) := by
  have hd := merge_disjoint_commutes_union OperationTemplateBuildFnTable.builtin
    HexCounter.build_fn_table (by decide) (by decide) (by decide)
  exact ⟨(hd "num_digits_in_id").1.2.1, (hd "num_digits_in_id").2.2.1.2,
    (hd "root").2.2.1.1⟩

/-- A valid call on a receiver of the matching kind tag builds successfully
on the builtin binding and produces a property of the predicted kind. -/
theorem build_method_valid (root : OperationId) (cur : Option OperationId)
    (p : OperationTemplatePropertyKind) (f : FunctionCallNode) (k2 : KindTag)
    (h : validCall (kindTagOf p) f = some k2) :
    ∃ q, (OperationTemplateLanguage.new root cur none).build_method () p f = .ok q ∧
      kindTagOf q = k2 := by
  obtain ⟨name, args, span⟩ := f
  cases p with
  | core c => cases c <;> simp [kindTagOf, validCall] at h
  | operationId pp =>
      simp only [kindTagOf, validCall] at h
      by_cases hn : name = "short"
      · subst hn
        rw [if_pos rfl] at h
        cases args with
        | nil =>
            injection h with h
            subst h
            exact ⟨_, rfl, rfl⟩
        | cons a as =>
            cases as with
            | cons b bs => simp at h
            | nil =>
                cases a with
                | stringLiteral s sp => simp at h
                | integerLiteral n sp =>
                    have h' : (if 0 ≤ n then some KindTag.string else none) = some k2 := h
                    by_cases hge : 0 ≤ n
                    · rw [if_pos hge] at h'
                      injection h' with h'
                      subst h'
                      have h1 : (OperationTemplateLanguage.new root cur none).build_method ()
                          (.operationId pp)
                          ⟨"short", [.integerLiteral n sp], span⟩ =
                          ((expect_usize_expression (.integerLiteral n sp)).map some).bind
                            (fun lp => .ok (wrap_string (shortOutProperty pp lp))) := rfl
                      rw [h1, expect_usize_nonneg n hge]
                      exact ⟨_, rfl, rfl⟩
                    · rw [if_neg hge] at h'
                      cases h'
      · rw [if_neg hn] at h
        cases h
  | operation pp =>
      simp only [kindTagOf, validCall] at h
      cases args with
      | cons a as => simp at h
      | nil =>
          simp only [builtinOperationMethodSig, fnLookup] at h
          by_cases h1 : name = "current_operation"
          · subst h1
            rw [if_pos rfl] at h
            injection h with h
            subst h
            exact ⟨_, rfl, rfl⟩
          rw [if_neg (fun hh : "current_operation" = name => h1 hh.symm)] at h
          by_cases h2 : name = "description"
          · subst h2
            rw [if_pos rfl] at h
            injection h with h
            subst h
            exact ⟨_, rfl, rfl⟩
          rw [if_neg (fun hh : "description" = name => h2 hh.symm)] at h
          by_cases h3 : name = "id"
          · subst h3
            rw [if_pos rfl] at h
            injection h with h
            subst h
            exact ⟨_, rfl, rfl⟩
          rw [if_neg (fun hh : "id" = name => h3 hh.symm)] at h
          by_cases h4 : name = "tags"
          · subst h4
            rw [if_pos rfl] at h
            injection h with h
            subst h
            exact ⟨_, rfl, rfl⟩
          rw [if_neg (fun hh : "tags" = name => h4 hh.symm)] at h
          by_cases h5 : name = "time"
          · subst h5
            rw [if_pos rfl] at h
            injection h with h
            subst h
            exact ⟨_, rfl, rfl⟩
          rw [if_neg (fun hh : "time" = name => h5 hh.symm)] at h
          by_cases h6 : name = "user"
          · subst h6
            rw [if_pos rfl] at h
            injection h with h
            subst h
            exact ⟨_, rfl, rfl⟩
          rw [if_neg (fun hh : "user" = name => h6 hh.symm)] at h
          by_cases h7 : name = "root"
          · subst h7
            rw [if_pos rfl] at h
            injection h with h
            subst h
            exact ⟨_, rfl, rfl⟩
          rw [if_neg (fun hh : "root" = name => h7 hh.symm)] at h
          cases h

/-- Every well-formed call chain builds successfully on the builtin
binding. -/
theorem buildCalls_wf (root : OperationId) (cur : Option OperationId)
    (fs : List FunctionCallNode) :
    ∀ p, wellFormedCalls (kindTagOf p) fs = true →
      ∃ q, buildCalls (OperationTemplateLanguage.new root cur none) p fs = .ok q := by
  induction fs with
  | nil => exact fun p _ => ⟨p, rfl⟩
  | cons f fs ih =>
      intro p h
      cases hv : validCall (kindTagOf p) f with
      | none => simp [wellFormedCalls, hv] at h
      | some k2 =>
          simp only [wellFormedCalls, hv] at h
          obtain ⟨q1, hb, hk⟩ := build_method_valid root cur p f k2 hv
          obtain ⟨q2, hb2⟩ := ih q1 (by rw [hk]; exact h)
          exact ⟨q2, by simp only [buildCalls, hb]; exact hb2⟩

/-- Claim C7: every well-formed call tree — one invoking only methods
registered for the receiver's resolved kind, with valid argument shapes —
builds successfully from the root property, and evaluating the resulting
property twice against the same context yields the same output both times. -/
theorem well_formed_build_deterministic (root : OperationId)
    (cur : Option OperationId) (fs : List FunctionCallNode)
    (h : wellFormedCalls .operation fs = true) :
    ∃ q, buildCalls (OperationTemplateLanguage.new root cur none)
        ((OperationTemplateLanguage.new root cur none).build_self) fs = .ok q ∧
      ∀ op, evalTwice q op = (evalOnce q op, evalOnce q op) ∧
        (evalTwice q op).1 = (evalTwice q op).2 := by
  obtain ⟨q, hb⟩ := buildCalls_wf root cur fs
    ((OperationTemplateLanguage.new root cur none).build_self) h
  exact ⟨q, hb, fun op => ⟨rfl, rfl⟩⟩

/-- Witness for C7: the concrete template `self.id().short(4)` is well
formed, builds on the builtin binding, and both renderer passes on the
sample context agree. -/
theorem well_formed_build_deterministic_witness :
    ∃ q, buildCalls (OperationTemplateLanguage.new otherId none none)
        ((OperationTemplateLanguage.new otherId none none).build_self)
        [⟨"id", [], 0⟩, ⟨"short", [.integerLiteral 4 1], 2⟩] = .ok q ∧
      evalTwice q sampleOp = (evalOnce q sampleOp, evalOnce q sampleOp) := by
  obtain ⟨q, hb, hd⟩ := well_formed_build_deterministic otherId none
    [⟨"id", [], 0⟩, ⟨"short", [.integerLiteral 4 1], 2⟩] (by decide)
  exact ⟨q, hb, (hd sampleOp).1⟩

end JJ
